import Mathlib

/-!
Verification of the chromewhip generated protocol bindings
(`chromewhip/protocol/*.py`) and of the dispatch/correlation core that the
specification describes around them.  Python runtime values are embedded as
`PyValue`; each generated event class is transcribed into a catalog entry and,
for the classes the claims cite, into executable definitions mirroring the
Python source line by line.  Parts of the repository that are not in the
provided sources (`chromewhip/helpers.py`, the session/dispatch core) are
modelled from the specification and are marked as such in their doc comments.
-/

namespace Chromewhip

/-- Python runtime values as they occur on the wire (JSON scalars, arrays,
objects) and after decoding (constructed `ChromeTypeBase` instances, embedded
as `obj`).  Python `None` is `PyValue.none`; floats are carried abstractly as
rationals (no claim computes with them). -/
inductive PyValue : Type where
  | none : PyValue
  | bool (b : Bool) : PyValue
  | int (n : Int) : PyValue
  | pyfloat (q : Rat) : PyValue
  | str (s : String) : PyValue
  | list (xs : List PyValue) : PyValue
  | dict (kvs : List (String × PyValue)) : PyValue
  | obj (className : String) (attrs : List (String × PyValue)) : PyValue

/-- `True` exactly on Python `None` (the `v is None` test). -/
def PyValue.isNone : PyValue → Bool
  | .none => true
  | _ => false

/-- The `isinstance(v, dict)` test used throughout the generated
constructors. -/
def PyValue.isDict : PyValue → Bool
  | .dict _ => true
  | _ => false

/-- `True` exactly on constructed structure instances. -/
def PyValue.isObj : PyValue → Bool
  | .obj _ _ => true
  | _ => false

/-- Python `', '.join` (element rendering already done). -/
def joinCommaSpace : List String → String
  | [] => ""
  | [s] => s
  | s :: ss => s ++ ", " ++ joinCommaSpace ss

mutual
/-- Python `repr`.  String quoting assumes the string holds no quote or escape
characters; the memory address in the default object repr is abstracted away
(no claim renders floats, dicts or objects). -/
def pyRepr : PyValue → String
  | .none => "None"
  | .bool true => "True"
  | .bool false => "False"
  | .int n => toString n
  | .pyfloat _ => "<float>"
  | .str s => "'" ++ s ++ "'"
  | .list xs => "[" ++ joinCommaSpace (pyReprList xs) ++ "]"
  | .dict kvs => "\x7b" ++ joinCommaSpace (pyReprDict kvs) ++ "\x7d"
  | .obj c _ => "<" ++ c ++ " object>"

def pyReprList : List PyValue → List String
  | [] => []
  | v :: vs => pyRepr v :: pyReprList vs

def pyReprDict : List (String × PyValue) → List String
  | [] => []
  | kv :: kvs => ("'" ++ kv.1 ++ "': " ++ pyRepr kv.2) :: pyReprDict kvs
end

/-- Python `str`: identity on strings, `repr` on everything else. -/
def pyStr : PyValue → String
  | .str s => s
  | v => pyRepr v

/-- Python `','.join`. -/
def joinComma : List String → String
  | [] => ""
  | [s] => s
  | s :: ss => s ++ "," ++ joinComma ss

/-- The body shared by every generated `build_hash` classmethod:
`kwargs = locals(); kwargs.pop('cls')` collects the parameters in declared
order, then
`serialized_id_params = ','.join(['='.join([p, str(v)]) for p, v in kwargs.items()])`
and `h = '{}:{}'.format(cls.js_name, serialized_id_params)`. -/
def buildHashString (jsName : String) (kwargs : List (String × PyValue)) : String :=
  jsName ++ ":" ++ joinComma (kwargs.map fun pv => pv.1 ++ "=" ++ pyStr pv.2)

/-- Transcription of one generated event class: its `js_name`, `hashable` and
`is_hashable` class attributes, the parameter list of its `build_hash`
classmethod (without `cls`), and the parameter list of its `__init__`
(without `self`), all in declared order. -/
structure EventClassDecl where
  name : String
  js_name : String
  hashable : List String
  is_hashable : Bool
  buildHashParams : List String
  ctorParams : List String
deriving DecidableEq, Repr

/-- Every event class of the sixteen generated protocol modules, transcribed
from `chromewhip/protocol/{applicationcache,css,debugger,dom,inspector,
network,overlay,profiler,security,serviceworker,tracing}.py` (the remaining
five modules declare no events). -/
def eventCatalog : List EventClassDecl := [
  ⟨("ApplicationCacheStatusUpdatedEvent"), ("Applicationcache.applicationCacheStatusUpdated"),
   [("frameId")], true, [("frameId")], [("frameId"), ("manifestURL"), ("status")]⟩,
  ⟨("NetworkStateUpdatedEvent"), ("Applicationcache.networkStateUpdated"),
   [], false, [], [("isNowOnline")]⟩,
  ⟨("MediaQueryResultChangedEvent"), ("Css.mediaQueryResultChanged"), [], false, [], []⟩,
  ⟨("FontsUpdatedEvent"), ("Css.fontsUpdated"), [], false, [], []⟩,
  ⟨("StyleSheetChangedEvent"), ("Css.styleSheetChanged"),
   [("styleSheetId")], true, [("styleSheetId")], [("styleSheetId")]⟩,
  ⟨("StyleSheetAddedEvent"), ("Css.styleSheetAdded"), [], false, [], [("header")]⟩,
  ⟨("StyleSheetRemovedEvent"), ("Css.styleSheetRemoved"),
   [("styleSheetId")], true, [("styleSheetId")], [("styleSheetId")]⟩,
  ⟨("ScriptParsedEvent"), ("Debugger.scriptParsed"),
   [("scriptId"), ("executionContextId")], true, [("scriptId"), ("executionContextId")],
   [("scriptId"), ("url"), ("startLine"), ("startColumn"), ("endLine"), ("endColumn"),
    ("executionContextId"), ("hash"), ("executionContextAuxData"), ("isLiveEdit"),
    ("sourceMapURL"), ("hasSourceURL"), ("isModule"), ("length"), ("stackTrace")]⟩,
  ⟨("ScriptFailedToParseEvent"), ("Debugger.scriptFailedToParse"),
   [("scriptId"), ("executionContextId")], true, [("scriptId"), ("executionContextId")],
   [("scriptId"), ("url"), ("startLine"), ("startColumn"), ("endLine"), ("endColumn"),
    ("executionContextId"), ("hash"), ("executionContextAuxData"),
    ("sourceMapURL"), ("hasSourceURL"), ("isModule"), ("length"), ("stackTrace")]⟩,
  ⟨("BreakpointResolvedEvent"), ("Debugger.breakpointResolved"),
   [("breakpointId")], true, [("breakpointId")], [("breakpointId"), ("location")]⟩,
  ⟨("PausedEvent"), ("Debugger.paused"), [], false, [],
   [("callFrames"), ("reason"), ("data"), ("hitBreakpoints"), ("asyncStackTrace")]⟩,
  ⟨("ResumedEvent"), ("Debugger.resumed"), [], false, [], []⟩,
  ⟨("DocumentUpdatedEvent"), ("Dom.documentUpdated"), [], false, [], []⟩,
  ⟨("SetChildNodesEvent"), ("Dom.setChildNodes"),
   [("parentId")], true, [("parentId")], [("parentId"), ("nodes")]⟩,
  ⟨("AttributeModifiedEvent"), ("Dom.attributeModified"),
   [("nodeId")], true, [("nodeId")], [("nodeId"), ("name"), ("value")]⟩,
  ⟨("AttributeRemovedEvent"), ("Dom.attributeRemoved"),
   [("nodeId")], true, [("nodeId")], [("nodeId"), ("name")]⟩,
  ⟨("InlineStyleInvalidatedEvent"), ("Dom.inlineStyleInvalidated"),
   [("nodeIds")], true, [("nodeIds")], [("nodeIds")]⟩,
  ⟨("CharacterDataModifiedEvent"), ("Dom.characterDataModified"),
   [("nodeId")], true, [("nodeId")], [("nodeId"), ("characterData")]⟩,
  ⟨("ChildNodeCountUpdatedEvent"), ("Dom.childNodeCountUpdated"),
   [("nodeId")], true, [("nodeId")], [("nodeId"), ("childNodeCount")]⟩,
  ⟨("ChildNodeInsertedEvent"), ("Dom.childNodeInserted"),
   [("previousNodeId"), ("parentNodeId")], true, [("previousNodeId"), ("parentNodeId")],
   [("parentNodeId"), ("previousNodeId"), ("node")]⟩,
  ⟨("ChildNodeRemovedEvent"), ("Dom.childNodeRemoved"),
   [("nodeId"), ("parentNodeId")], true, [("nodeId"), ("parentNodeId")],
   [("parentNodeId"), ("nodeId")]⟩,
  ⟨("ShadowRootPushedEvent"), ("Dom.shadowRootPushed"),
   [("hostId")], true, [("hostId")], [("hostId"), ("root")]⟩,
  ⟨("ShadowRootPoppedEvent"), ("Dom.shadowRootPopped"),
   [("rootId"), ("hostId")], true, [("rootId"), ("hostId")], [("hostId"), ("rootId")]⟩,
  ⟨("PseudoElementAddedEvent"), ("Dom.pseudoElementAdded"),
   [("parentId")], true, [("parentId")], [("parentId"), ("pseudoElement")]⟩,
  ⟨("PseudoElementRemovedEvent"), ("Dom.pseudoElementRemoved"),
   [("parentId"), ("pseudoElementId")], true, [("parentId"), ("pseudoElementId")],
   [("parentId"), ("pseudoElementId")]⟩,
  ⟨("DistributedNodesUpdatedEvent"), ("Dom.distributedNodesUpdated"),
   [("insertionPointId")], true, [("insertionPointId")],
   [("insertionPointId"), ("distributedNodes")]⟩,
  ⟨("DetachedEvent"), ("Inspector.detached"), [], false, [], [("reason")]⟩,
  ⟨("TargetCrashedEvent"), ("Inspector.targetCrashed"), [], false, [], []⟩,
  ⟨("ResourceChangedPriorityEvent"), ("Network.resourceChangedPriority"),
   [("requestId")], true, [("requestId")], [("requestId"), ("newPriority"), ("timestamp")]⟩,
  ⟨("RequestWillBeSentEvent"), ("Network.requestWillBeSent"),
   [("loaderId"), ("frameId"), ("requestId")], true,
   [("loaderId"), ("frameId"), ("requestId")],
   [("requestId"), ("loaderId"), ("documentURL"), ("request"), ("timestamp"),
    ("wallTime"), ("initiator"), ("redirectResponse"), ("type"), ("frameId")]⟩,
  ⟨("RequestServedFromCacheEvent"), ("Network.requestServedFromCache"),
   [("requestId")], true, [("requestId")], [("requestId")]⟩,
  ⟨("ResponseReceivedEvent"), ("Network.responseReceived"),
   [("loaderId"), ("frameId"), ("requestId")], true,
   [("loaderId"), ("frameId"), ("requestId")],
   [("requestId"), ("loaderId"), ("timestamp"), ("type"), ("response"), ("frameId")]⟩,
  ⟨("DataReceivedEvent"), ("Network.dataReceived"),
   [("requestId")], true, [("requestId")],
   [("requestId"), ("timestamp"), ("dataLength"), ("encodedDataLength")]⟩,
  ⟨("LoadingFinishedEvent"), ("Network.loadingFinished"),
   [("requestId")], true, [("requestId")],
   [("requestId"), ("timestamp"), ("encodedDataLength")]⟩,
  ⟨("LoadingFailedEvent"), ("Network.loadingFailed"),
   [("requestId")], true, [("requestId")],
   [("requestId"), ("timestamp"), ("type"), ("errorText"), ("canceled"), ("blockedReason")]⟩,
  ⟨("WebSocketWillSendHandshakeRequestEvent"), ("Network.webSocketWillSendHandshakeRequest"),
   [("requestId")], true, [("requestId")],
   [("requestId"), ("timestamp"), ("wallTime"), ("request")]⟩,
  ⟨("WebSocketHandshakeResponseReceivedEvent"), ("Network.webSocketHandshakeResponseReceived"),
   [("requestId")], true, [("requestId")], [("requestId"), ("timestamp"), ("response")]⟩,
  ⟨("WebSocketCreatedEvent"), ("Network.webSocketCreated"),
   [("requestId")], true, [("requestId")], [("requestId"), ("url"), ("initiator")]⟩,
  ⟨("WebSocketClosedEvent"), ("Network.webSocketClosed"),
   [("requestId")], true, [("requestId")], [("requestId"), ("timestamp")]⟩,
  ⟨("WebSocketFrameReceivedEvent"), ("Network.webSocketFrameReceived"),
   [("requestId")], true, [("requestId")], [("requestId"), ("timestamp"), ("response")]⟩,
  ⟨("WebSocketFrameErrorEvent"), ("Network.webSocketFrameError"),
   [("requestId")], true, [("requestId")], [("requestId"), ("timestamp"), ("errorMessage")]⟩,
  ⟨("WebSocketFrameSentEvent"), ("Network.webSocketFrameSent"),
   [("requestId")], true, [("requestId")], [("requestId"), ("timestamp"), ("response")]⟩,
  ⟨("EventSourceMessageReceivedEvent"), ("Network.eventSourceMessageReceived"),
   [("eventId"), ("requestId")], true, [("eventId"), ("requestId")],
   [("requestId"), ("timestamp"), ("eventName"), ("eventId"), ("data")]⟩,
  ⟨("RequestInterceptedEvent"), ("Network.requestIntercepted"),
   [("interceptionId")], true, [("interceptionId")],
   [("interceptionId"), ("request"), ("resourceType"), ("redirectHeaders"),
    ("redirectStatusCode"), ("redirectUrl"), ("authChallenge")]⟩,
  ⟨("NodeHighlightRequestedEvent"), ("Overlay.nodeHighlightRequested"),
   [("nodeId")], true, [("nodeId")], [("nodeId")]⟩,
  ⟨("InspectNodeRequestedEvent"), ("Overlay.inspectNodeRequested"),
   [("backendNodeId")], true, [("backendNodeId")], [("backendNodeId")]⟩,
  ⟨("ConsoleProfileStartedEvent"), ("Profiler.consoleProfileStarted"),
   [("id")], true, [("id")], [("id"), ("location"), ("title")]⟩,
  ⟨("ConsoleProfileFinishedEvent"), ("Profiler.consoleProfileFinished"),
   [("id")], true, [("id")], [("id"), ("location"), ("profile"), ("title")]⟩,
  ⟨("SecurityStateChangedEvent"), ("Security.securityStateChanged"), [], false, [],
   [("securityState"), ("schemeIsCryptographic"), ("explanations"),
    ("insecureContentStatus"), ("summary")]⟩,
  ⟨("CertificateErrorEvent"), ("Security.certificateError"),
   [("eventId")], true, [("eventId")], [("eventId"), ("errorType"), ("requestURL")]⟩,
  ⟨("WorkerRegistrationUpdatedEvent"), ("Serviceworker.workerRegistrationUpdated"),
   [], false, [], [("registrations")]⟩,
  ⟨("WorkerVersionUpdatedEvent"), ("Serviceworker.workerVersionUpdated"),
   [], false, [], [("versions")]⟩,
  ⟨("WorkerErrorReportedEvent"), ("Serviceworker.workerErrorReported"),
   [], false, [], [("errorMessage")]⟩,
  ⟨("BufferUsageEvent"), ("Tracing.bufferUsage"), [], false, [],
   [("percentFull"), ("eventCount"), ("value")]⟩,
  ⟨("DataCollectedEvent"), ("Tracing.dataCollected"), [], false, [], [("value")]⟩,
  ⟨("TracingCompleteEvent"), ("Tracing.tracingComplete"), [], false, [],
   [("stream"), ("streamCompression")]⟩]

/-- A generated event class's `build_hash`, seen uniformly through its catalog
entry: hashable classes join their parameters (which are the `hashable`
fields, in declared order) as `field=str(value)` pairs after `js_name + ':'`;
non-hashable classes `raise ValueError('Unable to build hash for non-hashable
type')`, embedded as `Except.error`. -/
def catalogBuildHash (e : EventClassDecl) (vs : List PyValue) : Except String String :=
  if e.is_hashable then
    Except.ok (buildHashString e.js_name (e.buildHashParams.zip vs))
  else
    Except.error ("Unable to build hash for non-hashable type")

/-- The identity computation exactly as the specification words it: an
identity string obtained "by concatenating `js_name:` + comma-joined
`field=stringvalue` pairs for each name in `hashable`, in the declared order".
Written from the specification, to be compared with the source-derived
`build_hash` definitions. -/
def specEventIdentity (jsName : String) (hashableFields : List String)
    (vs : List PyValue) : String :=
  jsName ++ ":" ++ joinComma (hashableFields.zipWith (fun f v => f ++ "=" ++ pyStr v) vs)

namespace SetChildNodesEvent

/-- `dom.py`: `js_name = 'Dom.setChildNodes'`. -/
def js_name : String := "Dom.setChildNodes"

/-- `dom.py`: `hashable = ['parentId']`. -/
def hashable : List String := [("parentId")]

/-- `dom.py`: `is_hashable = True`. -/
def is_hashable : Bool := true

/-- `dom.py`, `SetChildNodesEvent.build_hash(cls, parentId)`. -/
def build_hash (parentId : PyValue) : String :=
  buildHashString js_name [(("parentId"), parentId)]

end SetChildNodesEvent

namespace ScriptParsedEvent

/-- `debugger.py`: `js_name = 'Debugger.scriptParsed'`. -/
def js_name : String := "Debugger.scriptParsed"

/-- `debugger.py`: `hashable = ['scriptId', 'executionContextId']`. -/
def hashable : List String := [("scriptId"), ("executionContextId")]

/-- `debugger.py`: `is_hashable = True`. -/
def is_hashable : Bool := true

/-- `debugger.py`, `ScriptParsedEvent.build_hash(cls, scriptId, executionContextId)`. -/
def build_hash (scriptId executionContextId : PyValue) : String :=
  buildHashString js_name
    [(("scriptId"), scriptId), (("executionContextId"), executionContextId)]

end ScriptParsedEvent

namespace RequestWillBeSentEvent

/-- `network.py`: `js_name = 'Network.requestWillBeSent'`. -/
def js_name : String := "Network.requestWillBeSent"

/-- `network.py`: `hashable = ['loaderId', 'frameId', 'requestId']`. -/
def hashable : List String := [("loaderId"), ("frameId"), ("requestId")]

/-- `network.py`: `is_hashable = True`. -/
def is_hashable : Bool := true

/-- `network.py`, `RequestWillBeSentEvent.build_hash(cls, loaderId, frameId, requestId)`. -/
def build_hash (loaderId frameId requestId : PyValue) : String :=
  buildHashString js_name
    [(("loaderId"), loaderId), (("frameId"), frameId), (("requestId"), requestId)]

end RequestWillBeSentEvent

namespace ChildNodeInsertedEvent

/-- `dom.py`: `js_name = 'Dom.childNodeInserted'`. -/
def js_name : String := "Dom.childNodeInserted"

/-- `dom.py`: `hashable = ['previousNodeId', 'parentNodeId']`. -/
def hashable : List String := [("previousNodeId"), ("parentNodeId")]

/-- `dom.py`: `is_hashable = True`. -/
def is_hashable : Bool := true

/-- `dom.py`, `ChildNodeInsertedEvent.build_hash(cls, previousNodeId, parentNodeId)`. -/
def build_hash (previousNodeId parentNodeId : PyValue) : String :=
  buildHashString js_name
    [(("previousNodeId"), previousNodeId), (("parentNodeId"), parentNodeId)]

end ChildNodeInsertedEvent

namespace DetachedEvent

/-- `inspector.py`: `js_name = 'Inspector.detached'`. -/
def js_name : String := "Inspector.detached"

/-- `inspector.py`: `hashable = []`. -/
def hashable : List String := []

/-- `inspector.py`: `is_hashable = False`. -/
def is_hashable : Bool := false

/-- `inspector.py`, `DetachedEvent.build_hash(cls)`:
`raise ValueError('Unable to build hash for non-hashable type')`. -/
def build_hash : Except String String :=
  Except.error ("Unable to build hash for non-hashable type")

end DetachedEvent

namespace DocumentUpdatedEvent

/-- `dom.py`: `js_name = 'Dom.documentUpdated'`. -/
def js_name : String := "Dom.documentUpdated"

/-- `dom.py`: `hashable = []`. -/
def hashable : List String := []

/-- `dom.py`: `is_hashable = False`. -/
def is_hashable : Bool := false

/-- `dom.py`, `DocumentUpdatedEvent.build_hash(cls)`:
`raise ValueError('Unable to build hash for non-hashable type')`. -/
def build_hash : Except String String :=
  Except.error ("Unable to build hash for non-hashable type")

end DocumentUpdatedEvent

/-- Key lookup in a raw params mapping (association list, first match). -/
def lookupArg (k : String) (args : List (String × PyValue)) : Option PyValue :=
  match args.find? (fun kv => kv.1 == k) with
  | some kv => some kv.2
  | Option.none => Option.none

/-- Modelled from the spec: the Event Dispatcher (not part of the generated
modules under `src/`) computes the dedup identity of an Event Frame by taking
"the pre-decode raw values of exactly those fields" named in `hashable`, in
declared order, and feeding them to the class's `build_hash`. -/
def frameIdentity (e : EventClassDecl) (params : List (String × PyValue)) : String :=
  buildHashString e.js_name
    (e.hashable.map fun f => (f, (lookupArg f params).getD PyValue.none))

/-- An outbound command envelope (the `id` is attached later by the
Correlator; the generated builders produce the method/params part). -/
structure SendPayload where
  method : String
  params : List (String × PyValue)

/-- A result-conversion schema: each declared result field name mapped to the
name of its declared class and its optional flag, in declared order. -/
def ResultSchema := List (String × String × Bool)

/-- Modelled from the spec: `PayloadMixin.build_send_payload`
(`chromewhip/helpers.py` is not under `src/`).  Builds the wire method name
`Domain.method` and the params mapping, "omitting any optional parameter whose
caller-supplied value is absent/undefined (never sends an explicit null/absent
marker for omitted optional fields — the wire payload simply lacks the key)":
parameters whose value is Python `None` are dropped. -/
def build_send_payload (domain method : String)
    (params : List (String × PyValue)) : SendPayload :=
  { method := domain ++ "." ++ method,
    params := params.filter (fun kv => !kv.2.isNone) }

/-- Modelled from the spec: `PayloadMixin.convert_payload`
(`chromewhip/helpers.py` is not under `src/`).  The generated builders hand it
the declared result shape; it is returned to the caller as the
result-conversion schema "so the caller can later decode the matching response
without re-consulting the catalog". -/
def convert_payload (schema : ResultSchema) : ResultSchema := schema

namespace Network

/-- `network.py`, `Network.enable(cls, maxTotalBufferSize=None,
maxResourceBufferSize=None)`. -/
def enable (maxTotalBufferSize maxResourceBufferSize : PyValue) :
    SendPayload × Option ResultSchema :=
  (build_send_payload ("Network") ("enable")
    [(("maxTotalBufferSize"), maxTotalBufferSize),
     (("maxResourceBufferSize"), maxResourceBufferSize)],
   Option.none)

/-- `network.py`, `Network.setUserAgentOverride(cls, userAgent)`. -/
def setUserAgentOverride (userAgent : PyValue) : SendPayload × Option ResultSchema :=
  (build_send_payload ("Network") ("setUserAgentOverride")
    [(("userAgent"), userAgent)],
   Option.none)

/-- `network.py`, `Network.getResponseBody(cls, requestId)`: declares the
result shape `body: str (required), base64Encoded: bool (required)`. -/
def getResponseBody (requestId : PyValue) : SendPayload × Option ResultSchema :=
  (build_send_payload ("Network") ("getResponseBody")
    [(("requestId"), requestId)],
   some (convert_payload
     [(("body"), ("str"), false), (("base64Encoded"), ("bool"), false)]))

end Network

namespace DOM

/-- `dom.py`, `DOM.getDocument(cls, depth=None, pierce=None)`: declares the
result shape `root: Node (required)`. -/
def getDocument (depth pierce : PyValue) : SendPayload × Option ResultSchema :=
  (build_send_payload ("DOM") ("getDocument")
    [(("depth"), depth), (("pierce"), pierce)],
   some (convert_payload [(("root"), ("Node"), false)]))

/-- `dom.py`, `DOM.getRelayoutBoundary(cls, nodeId)`: declares the result
shape `nodeId: NodeId (required)`. -/
def getRelayoutBoundary (nodeId : PyValue) : SendPayload × Option ResultSchema :=
  (build_send_payload ("DOM") ("getRelayoutBoundary")
    [(("nodeId"), nodeId)],
   some (convert_payload [(("nodeId"), ("NodeId"), false)]))

end DOM

namespace DeviceOrientation

/-- `deviceorientation.py`,
`DeviceOrientation.setDeviceOrientationOverride(cls, alpha, beta, gamma)`. -/
def setDeviceOrientationOverride (alpha beta gamma : PyValue) :
    SendPayload × Option ResultSchema :=
  (build_send_payload ("DeviceOrientation") ("setDeviceOrientationOverride")
    [(("alpha"), alpha), (("beta"), beta), (("gamma"), gamma)],
   Option.none)

/-- `deviceorientation.py`, `DeviceOrientation.clearDeviceOrientationOverride(cls)`. -/
def clearDeviceOrientationOverride : SendPayload × Option ResultSchema :=
  (build_send_payload ("DeviceOrientation") ("clearDeviceOrientationOverride") [],
   Option.none)

end DeviceOrientation

/-- One decoding step of a generated event `__init__`: every field is handled
by the two source lines `if isinstance(x, dict): x = C(**x)` followed by
`self.x = x`, where `C` is the field's declared class.  A raised `TypeError`
inside the conversion is an `Except.error`. -/
def decodeStep (ctor : PyValue → Except String PyValue) (v : PyValue) :
    Except String PyValue :=
  if v.isDict then ctor v else Except.ok v

/-- Python `int(**d)`: with no keywords this is `int()` = `0`; any keyword is
a `TypeError` (`int` accepts no keyword arguments). -/
def intCtorKw : PyValue → Except String PyValue
  | .dict [] => Except.ok (PyValue.int 0)
  | _ => Except.error ("TypeError")

/-- Python `str(**d)`: `str()` is `''`, `str(object=v)` is `str(v)`; any
other keyword is a `TypeError`. -/
def strCtorKw : PyValue → Except String PyValue
  | .dict [] => Except.ok (PyValue.str "")
  | .dict [kv] =>
    if kv.1 == "object" then Except.ok (PyValue.str (pyStr kv.2))
    else Except.error ("TypeError")
  | _ => Except.error ("TypeError")

/-- Python `bool(**d)`: `bool()` is `False`; any keyword is a `TypeError`. -/
def boolCtorKw : PyValue → Except String PyValue
  | .dict [] => Except.ok (PyValue.bool false)
  | _ => Except.error ("TypeError")

/-- Python `float(**d)`: `float()` is `0.0`; any keyword is a `TypeError`. -/
def floatCtorKw : PyValue → Except String PyValue
  | .dict [] => Except.ok (PyValue.pyfloat 0)
  | _ => Except.error ("TypeError")

/-- Python `dict(**d)`: a copy of the mapping. -/
def dictCtorKw : PyValue → Except String PyValue
  | .dict kvs => Except.ok (PyValue.dict kvs)
  | _ => Except.error ("TypeError")

/-- The generated expression `[Node](**nodes)` (and its siblings for every
sequence-typed field): calling the list literal `[C]` always raises
`TypeError: 'list' object is not callable`, whatever the keywords are. -/
def listLiteralCallCtor : PyValue → Except String PyValue
  | _ => Except.error ("TypeError: list object is not callable")

/-- Transcription of one `ChromeTypeBase` subclass declaration: its parameter
names in declared order, tagged with whether the parameter is required (no
default). -/
structure ClassDecl where
  name : String
  params : List (String × Bool)
deriving DecidableEq, Repr

/-- A `ChromeTypeBase` subclass applied to keyword arguments, `C(**d)`:
Python raises `TypeError` if a keyword is not a declared parameter or a
required parameter is missing; otherwise `__init__` assigns every parameter
to the attribute of the same name, missing optionals defaulting to `None`.
The `__init__` bodies are plain assignments — nested fields are stored as the
raw values bound to the keywords, with no further conversion.  (Attributes
are recorded in parameter order; the claims only concern their values.) -/
def chromeCtor (c : ClassDecl) (v : PyValue) : Except String PyValue :=
  match v with
  | .dict kvs =>
    if kvs.all (fun kv => c.params.any (fun p => p.1 == kv.1)) &&
       c.params.all (fun p => !p.2 || kvs.any (fun kv => kv.1 == p.1)) then
      Except.ok (PyValue.obj c.name
        (c.params.map fun p => (p.1, (lookupArg p.1 kvs).getD PyValue.none)))
    else
      Except.error ("TypeError")
  | _ => Except.error ("TypeError")

/-- `dom.py`, `class Node(ChromeTypeBase)`: parameter list of `Node.__init__`
(required first, then the optionals defaulting to `None`). -/
def nodeDecl : ClassDecl :=
  ⟨("Node"),
   [(("nodeId"), true), (("backendNodeId"), true), (("nodeType"), true),
    (("nodeName"), true), (("localName"), true), (("nodeValue"), true),
    (("parentId"), false), (("childNodeCount"), false), (("children"), false),
    (("attributes"), false), (("documentURL"), false), (("baseURL"), false),
    (("publicId"), false), (("systemId"), false), (("internalSubset"), false),
    (("xmlVersion"), false), (("name"), false), (("value"), false),
    (("pseudoType"), false), (("shadowRootType"), false), (("frameId"), false),
    (("contentDocument"), false), (("shadowRoots"), false),
    (("templateContent"), false), (("pseudoElements"), false),
    (("importedDocument"), false), (("distributedNodes"), false),
    (("isSVG"), false)]⟩

/-- `network.py`, `class Request(ChromeTypeBase)`. -/
def requestDecl : ClassDecl :=
  ⟨("Request"),
   [(("url"), true), (("method"), true), (("headers"), true),
    (("initialPriority"), true), (("referrerPolicy"), true),
    (("postData"), false), (("mixedContentType"), false), (("isLinkPreload"), false)]⟩

/-- `network.py`, `class Response(ChromeTypeBase)`. -/
def responseDecl : ClassDecl :=
  ⟨("Response"),
   [(("url"), true), (("status"), true), (("statusText"), true),
    (("headers"), true), (("mimeType"), true), (("connectionReused"), true),
    (("connectionId"), true), (("securityState"), true),
    (("encodedDataLength"), true), (("headersText"), false),
    (("requestHeaders"), false), (("requestHeadersText"), false),
    (("remoteIPAddress"), false), (("remotePort"), false),
    (("fromDiskCache"), false), (("fromServiceWorker"), false),
    (("timing"), false), (("protocol"), false), (("securityDetails"), false)]⟩

/-- `network.py`, `class Initiator(ChromeTypeBase)`. -/
def initiatorDecl : ClassDecl :=
  ⟨("Initiator"),
   [(("type"), true), (("stack"), false), (("url"), false), (("lineNumber"), false)]⟩

/-- Modelled from the spec: `Page.FrameId` (the `page` module is not under
`src/`); the protocol declares frame identifiers as strings, so its
keyword-constructor is the `str` one. -/
def frameIdCtorKw : PyValue → Except String PyValue := strCtorKw

/-- Modelled from the spec: `Page.ResourceType` (the `page` module is not
under `src/`); resource types are protocol strings. -/
def resourceTypeCtorKw : PyValue → Except String PyValue := strCtorKw

/-- `dom.py`, `SetChildNodesEvent.__init__(self, parentId, nodes)`:
`parentId` goes through `if isinstance(parentId, dict): parentId =
NodeId(**parentId)` (`NodeId = int`), and `nodes` through
`if isinstance(nodes, dict): nodes = [Node](**nodes)` — note that the
conversion applies only to dict-valued `nodes` and that `[Node](...)` calls a
list literal.  Returns the assigned attributes. -/
def SetChildNodesEvent.eventInit (parentId nodes : PyValue) :
    Except String (List (String × PyValue)) := do
  let parentId ← decodeStep intCtorKw parentId
  let nodes ← decodeStep listLiteralCallCtor nodes
  Except.ok [(("parentId"), parentId), (("nodes"), nodes)]

/-- `dom.py`, `ChildNodeInsertedEvent.__init__(self, parentNodeId,
previousNodeId, node)`: the two ids go through `NodeId(**...)` when
dict-valued, `node` through `Node(**node)` when dict-valued. -/
def ChildNodeInsertedEvent.eventInit (parentNodeId previousNodeId node : PyValue) :
    Except String (List (String × PyValue)) := do
  let parentNodeId ← decodeStep intCtorKw parentNodeId
  let previousNodeId ← decodeStep intCtorKw previousNodeId
  let node ← decodeStep (chromeCtor nodeDecl) node
  Except.ok [(("parentNodeId"), parentNodeId),
             (("previousNodeId"), previousNodeId), (("node"), node)]

/-- `network.py`, `RequestWillBeSentEvent.__init__`: each field goes through
`if isinstance(x, dict): x = C(**x)` with its declared class (`RequestId`,
`LoaderId` are `str`; `MonotonicTime`, `TimeSinceEpoch` are `float`;
`Request`, `Initiator`, `Response` are `ChromeTypeBase` subclasses;
`Page.ResourceType`, `Page.FrameId` come from the absent `page` module), in
source order, then the attributes are assigned. -/
def RequestWillBeSentEvent.eventInit
    (requestId loaderId documentURL request timestamp wallTime initiator
     redirectResponse type' frameId : PyValue) :
    Except String (List (String × PyValue)) := do
  let requestId ← decodeStep strCtorKw requestId
  let loaderId ← decodeStep strCtorKw loaderId
  let documentURL ← decodeStep strCtorKw documentURL
  let request ← decodeStep (chromeCtor requestDecl) request
  let timestamp ← decodeStep floatCtorKw timestamp
  let wallTime ← decodeStep floatCtorKw wallTime
  let initiator ← decodeStep (chromeCtor initiatorDecl) initiator
  let redirectResponse ← decodeStep (chromeCtor responseDecl) redirectResponse
  let type' ← decodeStep resourceTypeCtorKw type'
  let frameId ← decodeStep frameIdCtorKw frameId
  Except.ok [(("requestId"), requestId), (("loaderId"), loaderId),
             (("documentURL"), documentURL), (("request"), request),
             (("timestamp"), timestamp), (("wallTime"), wallTime),
             (("initiator"), initiator), (("redirectResponse"), redirectResponse),
             (("type"), type'), (("frameId"), frameId)]

/-- The error taxonomy of the specification's codec layer (only the kinds the
claims exercise). -/
inductive CodecError : Type where
  | schemaError : CodecError
deriving DecidableEq, Repr

/-- One Protocol Catalog entry: a `domain.method` pair with its declared
required and optional parameter names, transcribed from the generated
builders' signatures. -/
structure CatalogEntry where
  domain : String
  method : String
  required : List String
  optional : List String
deriving DecidableEq, Repr

/-- Catalog entries for the command builders the claims cite, transcribed
from the generated classmethod signatures (positional parameters are
required, `= None` parameters optional). -/
def commandCatalog : List CatalogEntry := [
  ⟨("Network"), ("enable"), [], [("maxTotalBufferSize"), ("maxResourceBufferSize")]⟩,
  ⟨("Network"), ("setUserAgentOverride"), [("userAgent")], []⟩,
  ⟨("Network"), ("getResponseBody"), [("requestId")], []⟩,
  ⟨("DOM"), ("getDocument"), [], [("depth"), ("pierce")]⟩,
  ⟨("DOM"), ("getRelayoutBoundary"), [("nodeId")], []⟩,
  ⟨("DeviceOrientation"), ("setDeviceOrientationOverride"),
   [("alpha"), ("beta"), ("gamma")], []⟩,
  ⟨("DeviceOrientation"), ("clearDeviceOrientationOverride"), [], []⟩]

/-- Modelled from the spec: the Message Codec's
`encode(domain, method, args) -> CommandEnvelope` (the codec layer around the
generated builders is not under `src/`).  It "looks up the catalog entry for
domain.method; raises SchemaError if absent; walks declared parameters,
copying only recognized names from `args`, omitting any optional parameter
whose caller-supplied value is absent/undefined; raises SchemaError if a
required parameter is missing" — and a supplied unrecognized parameter is
also a SchemaError.  Pure and synchronous: an error means no envelope is ever
produced, so nothing reaches the transport. -/
def encode (catalog : List CatalogEntry) (domain method : String)
    (args : List (String × PyValue)) : Except CodecError SendPayload :=
  match catalog.find? (fun e => e.domain == domain && e.method == method) with
  | Option.none => Except.error CodecError.schemaError
  | some e =>
    if e.required.all (fun r => (lookupArg r args).isSome) then
      if args.all (fun kv => (e.required ++ e.optional).any (fun p => p == kv.1)) then
        Except.ok
          { method := domain ++ "." ++ method,
            params := (e.required ++ e.optional).filterMap
              (fun p => (lookupArg p args).map (fun v => (p, v))) }
      else
        Except.error CodecError.schemaError
    else
      Except.error CodecError.schemaError

/-- A Response Frame as the Correlator sees it: the bearing id, and whether
it carries `error` rather than `result`. -/
structure RespFrame where
  id : Nat
  isError : Bool
deriving DecidableEq, Repr

/-- A satisfaction of a completion handle, delivered to the original
caller. -/
inductive Delivery : Type where
  | resolve (id : Nat) : Delivery
  | reject (id : Nat) : Delivery
deriving DecidableEq, Repr

/-- The request id a delivery satisfies. -/
def Delivery.reqId : Delivery → Nat
  | .resolve i => i
  | .reject i => i

/-- Modelled from the spec: the Request Correlator's per-session state (the
correlation core is not under `src/`): the ids of Pending requests, the ids
already driven to a terminal state, and a log of anomalous frames. -/
structure CorrState where
  pending : List Nat
  terminal : List Nat
  logged : List Nat

/-- Modelled from the spec: processing one Response Frame.  A frame bearing a
Pending id resolves (result) or rejects (error) that id's completion handle —
exactly one delivery — and moves the id to a terminal state; "a second frame
bearing an already-resolved id is a protocol anomaly and must be logged and
discarded, never re-delivered to the original caller". -/
def corrStep (s : CorrState) (f : RespFrame) : CorrState × Option Delivery :=
  if f.id ∈ s.pending then
    (⟨s.pending.erase f.id, f.id :: s.terminal, s.logged⟩,
     some (if f.isError then Delivery.reject f.id else Delivery.resolve f.id))
  else
    (⟨s.pending, s.terminal, f.id :: s.logged⟩, Option.none)

/-- Processing an arrival-ordered list of Response Frames, collecting every
delivery made to callers. -/
def corrRun (s : CorrState) : List RespFrame → CorrState × List Delivery
  | [] => (s, [])
  | f :: fs =>
    let (s', d) := corrStep s f
    let (s'', ds) := corrRun s' fs
    (s'', d.toList ++ ds)

lemma zip_map_eq_zipWith :
    ∀ (xs : List String) (vs : List PyValue),
      (xs.zip vs).map (fun pv => pv.1 ++ "=" ++ pyStr pv.2) =
        xs.zipWith (fun f v => f ++ "=" ++ pyStr v) vs
  | [], _ => by simp
  | _ :: _, [] => by simp
  | x :: xs, v :: vs => by
    simp only [List.zip_cons_cons, List.map_cons, List.zipWith_cons_cons]
    exact congrArg _ (zip_map_eq_zipWith xs vs)

lemma exceptBind_ok {α β : Type} (a : α) (f : α → Except String β) :
    (Except.ok a : Except String α) >>= f = f a := rfl

@[simp] lemma isDict_none : PyValue.none.isDict = false := rfl

lemma eventCatalog_buildHashParams_eq :
    ∀ e ∈ eventCatalog, e.is_hashable = true → e.buildHashParams = e.hashable := by
  decide

/-- Claim C9: for every generated event class, `is_hashable` is `True`
exactly when its `hashable` list is non-empty, and when `True` the
parameters of `build_hash` are exactly the fields named in `hashable`, in
the same declared order, each of which is also a constructor parameter of
the event class. -/
theorem claim_C9_hashable_contract :
    ∀ e ∈ eventCatalog,
      (e.is_hashable = !e.hashable.isEmpty) ∧
      (e.is_hashable = true →
        e.buildHashParams = e.hashable ∧ ∀ f ∈ e.hashable, f ∈ e.ctorParams) := by
  decide

theorem claim_C9_hashable_contract_witness :
    (⟨("SetChildNodesEvent"), ("Dom.setChildNodes"), [("parentId")], true,
      [("parentId")], [("parentId"), ("nodes")]⟩ : EventClassDecl) ∈ eventCatalog ∧
    ((⟨("SetChildNodesEvent"), ("Dom.setChildNodes"), [("parentId")], true,
      [("parentId")], [("parentId"), ("nodes")]⟩ : EventClassDecl).is_hashable =
      !(⟨("SetChildNodesEvent"), ("Dom.setChildNodes"), [("parentId")], true,
      [("parentId")], [("parentId"), ("nodes")]⟩ : EventClassDecl).hashable.isEmpty) :=
  ⟨by decide,
   (claim_C9_hashable_contract
     ⟨("SetChildNodesEvent"), ("Dom.setChildNodes"), [("parentId")], true,
      [("parentId")], [("parentId"), ("nodes")]⟩ (by decide)).1⟩

/-- Claim C1: for every generated event class with `is_hashable` true,
`build_hash` applied to the values of the fields named in its `hashable`
list returns exactly `js_name + ":" +` the comma-joined `field=str(value)`
pairs, one pair per hashable field, in the declared hashable order; in
particular an event with `js_name` `Foo.changed` and `hashable` `[nodeId]`,
given `nodeId` 5, yields `Foo.changed:nodeId=5`. -/
theorem claim_C1_build_hash_identity :
    (∀ e ∈ eventCatalog, e.is_hashable = true →
      ∀ vs : List PyValue,
        catalogBuildHash e vs = Except.ok (specEventIdentity e.js_name e.hashable vs)) ∧
    (∀ v, SetChildNodesEvent.build_hash v =
      specEventIdentity SetChildNodesEvent.js_name SetChildNodesEvent.hashable [v]) ∧
    (∀ s c, ScriptParsedEvent.build_hash s c =
      specEventIdentity ScriptParsedEvent.js_name ScriptParsedEvent.hashable [s, c]) ∧
    buildHashString ("Foo.changed") [(("nodeId"), PyValue.int 5)] = "Foo.changed:nodeId=5" := by
  refine ⟨?_, fun v => rfl, fun s c => rfl, by decide⟩
  intro e he hh vs
  have hp := eventCatalog_buildHashParams_eq e he hh
  simp only [catalogBuildHash, hh, if_pos, specEventIdentity, buildHashString, hp]
  rw [zip_map_eq_zipWith]

theorem claim_C1_build_hash_identity_witness :
    (⟨("SetChildNodesEvent"), ("Dom.setChildNodes"), [("parentId")], true,
      [("parentId")], [("parentId"), ("nodes")]⟩ : EventClassDecl) ∈ eventCatalog ∧
    catalogBuildHash
      ⟨("SetChildNodesEvent"), ("Dom.setChildNodes"), [("parentId")], true,
       [("parentId")], [("parentId"), ("nodes")]⟩ [PyValue.int 5] =
      Except.ok ("Dom.setChildNodes:parentId=5") :=
  ⟨by decide, by
    rw [claim_C1_build_hash_identity.1
      ⟨("SetChildNodesEvent"), ("Dom.setChildNodes"), [("parentId")], true,
       [("parentId")], [("parentId"), ("nodes")]⟩ (by decide) rfl [PyValue.int 5]]
    exact congrArg Except.ok (by decide)⟩

/-- Claim C5: for every generated event class with `is_hashable` false,
calling `build_hash` fails loudly by raising a ValueError rather than
returning a value; computing a dedup identity for a non-hashable event type
never silently succeeds. -/
theorem claim_C5_nonhashable_build_hash_raises :
    (∀ e ∈ eventCatalog, e.is_hashable = false →
      ∀ vs, catalogBuildHash e vs =
        Except.error ("Unable to build hash for non-hashable type")) ∧
    DetachedEvent.build_hash = Except.error ("Unable to build hash for non-hashable type") ∧
    DocumentUpdatedEvent.build_hash = Except.error ("Unable to build hash for non-hashable type") ∧
    (∀ s, DetachedEvent.build_hash ≠ Except.ok s) ∧
    (∀ s, DocumentUpdatedEvent.build_hash ≠ Except.ok s) := by
  refine ⟨?_, rfl, rfl, fun s h => by simp [DetachedEvent.build_hash] at h,
    fun s h => by simp [DocumentUpdatedEvent.build_hash] at h⟩
  intro e _ hf vs
  simp [catalogBuildHash, hf]

theorem claim_C5_nonhashable_build_hash_raises_witness :
    (⟨("DetachedEvent"), ("Inspector.detached"), [], false, [], [("reason")]⟩ :
      EventClassDecl) ∈ eventCatalog ∧
    catalogBuildHash
      ⟨("DetachedEvent"), ("Inspector.detached"), [], false, [], [("reason")]⟩ [] =
      Except.error ("Unable to build hash for non-hashable type") :=
  ⟨by decide,
   claim_C5_nonhashable_build_hash_raises.1
     ⟨("DetachedEvent"), ("Inspector.detached"), [], false, [], [("reason")]⟩
     (by decide) rfl []⟩

/-- Claim C10: every protocol command classmethod returns a pair whose first
component is the send payload built from the wire method name together with
a params mapping whose keys are exactly the declared parameter names, and
whose second component is either none (no declared result) or a
result-conversion schema mapping each declared result field name to its
class and an optional flag. -/
theorem claim_C10_command_pair_shape :
    (∀ a b g, DeviceOrientation.setDeviceOrientationOverride a b g =
        (build_send_payload ("DeviceOrientation") ("setDeviceOrientationOverride")
          [(("alpha"), a), (("beta"), b), (("gamma"), g)], Option.none) ∧
      ([(("alpha"), a), (("beta"), b), (("gamma"), g)] :
        List (String × PyValue)).map Prod.fst = [("alpha"), ("beta"), ("gamma")] ∧
      (DeviceOrientation.setDeviceOrientationOverride a b g).1.method =
        "DeviceOrientation.setDeviceOrientationOverride") ∧
    (∀ r, Network.getResponseBody r =
        (build_send_payload ("Network") ("getResponseBody") [(("requestId"), r)],
         some (convert_payload
           [(("body"), ("str"), false), (("base64Encoded"), ("bool"), false)])) ∧
      (Network.getResponseBody r).1.method = "Network.getResponseBody") ∧
    (∀ d p, DOM.getDocument d p =
        (build_send_payload ("DOM") ("getDocument") [(("depth"), d), (("pierce"), p)],
         some (convert_payload [(("root"), ("Node"), false)])) ∧
      (DOM.getDocument d p).1.method = "DOM.getDocument") := by
  refine ⟨fun a b g => ⟨rfl, rfl, ?_⟩, fun r => ⟨rfl, ?_⟩, fun d p => ⟨rfl, ?_⟩⟩ <;> rfl

/-- Claim C4 evaluation: the generated event constructors do not recursively
decode sequence-of-structure fields.  `SetChildNodesEvent.__init__` leaves a
list-valued `nodes` (whose declared type is `[Node]`) as the raw list of
dicts, because the conversion guard tests `isinstance(nodes, dict)`; and on
a dict-valued `nodes` the conversion expression `[Node](**nodes)` raises
`TypeError` since it calls a list literal.  Either way no ordered sequence
of recursively constructed `Node` elements is ever produced. -/
theorem claim_C4_sequence_field_not_decoded :
    SetChildNodesEvent.eventInit (PyValue.int 1)
        (PyValue.list [PyValue.dict [(("nodeId"), PyValue.int 5)]]) =
      Except.ok [(("parentId"), PyValue.int 1),
                 (("nodes"), PyValue.list [PyValue.dict [(("nodeId"), PyValue.int 5)]])] ∧
    SetChildNodesEvent.eventInit (PyValue.int 1) (PyValue.dict []) =
      Except.error ("TypeError: list object is not callable") ∧
    ChildNodeInsertedEvent.eventInit (PyValue.int 1) (PyValue.int 2)
        (PyValue.dict
          [(("nodeId"), PyValue.int 7), (("backendNodeId"), PyValue.int 8),
           (("nodeType"), PyValue.int 1), (("nodeName"), PyValue.str ("DIV")),
           (("localName"), PyValue.str ("div")), (("nodeValue"), PyValue.str ("")),
           (("children"), PyValue.list [PyValue.dict [(("nodeId"), PyValue.int 9)]])]) =
      Except.ok [(("parentNodeId"), PyValue.int 1),
                 (("previousNodeId"), PyValue.int 2),
                 (("node"), PyValue.obj ("Node")
                   [(("nodeId"), PyValue.int 7), (("backendNodeId"), PyValue.int 8),
                    (("nodeType"), PyValue.int 1), (("nodeName"), PyValue.str ("DIV")),
                    (("localName"), PyValue.str ("div")), (("nodeValue"), PyValue.str ("")),
                    (("parentId"), PyValue.none), (("childNodeCount"), PyValue.none),
                    (("children"), PyValue.list [PyValue.dict [(("nodeId"), PyValue.int 9)]]),
                    (("attributes"), PyValue.none), (("documentURL"), PyValue.none),
                    (("baseURL"), PyValue.none), (("publicId"), PyValue.none),
                    (("systemId"), PyValue.none), (("internalSubset"), PyValue.none),
                    (("xmlVersion"), PyValue.none), (("name"), PyValue.none),
                    (("value"), PyValue.none), (("pseudoType"), PyValue.none),
                    (("shadowRootType"), PyValue.none), (("frameId"), PyValue.none),
                    (("contentDocument"), PyValue.none), (("shadowRoots"), PyValue.none),
                    (("templateContent"), PyValue.none), (("pseudoElements"), PyValue.none),
                    (("importedDocument"), PyValue.none), (("distributedNodes"), PyValue.none),
                    (("isSVG"), PyValue.none)])] :=
  ⟨rfl, rfl, rfl⟩

/-- Claim C8: for every event constructor, an optional structure-typed field
whose wire value is null or absent decodes to the explicit absent marker (it
stays None); it is never replaced by a zero-valued structure instance.  The
first conjunct is the universal mechanism: the per-field decoding step maps
None to None for any declared class; the rest instantiates the cited
`RequestWillBeSentEvent.__init__`, whose optional `redirectResponse`,
`type` and `frameId` stay None. -/
theorem claim_C8_optional_structure_stays_none :
    (∀ ctor, decodeStep ctor PyValue.none = Except.ok PyValue.none) ∧
    (∀ rid lid durl req ts wt ini : PyValue,
      rid.isDict = false → lid.isDict = false → durl.isDict = false →
      req.isDict = false → ts.isDict = false → wt.isDict = false →
      ini.isDict = false →
      RequestWillBeSentEvent.eventInit rid lid durl req ts wt ini
          PyValue.none PyValue.none PyValue.none =
        Except.ok [(("requestId"), rid), (("loaderId"), lid),
                   (("documentURL"), durl), (("request"), req),
                   (("timestamp"), ts), (("wallTime"), wt),
                   (("initiator"), ini), (("redirectResponse"), PyValue.none),
                   (("type"), PyValue.none), (("frameId"), PyValue.none)]) ∧
    (∀ cn attrs, PyValue.none ≠ PyValue.obj cn attrs) := by
  refine ⟨fun ctor => rfl, ?_, fun cn attrs h => by cases h⟩
  intro rid lid durl req ts wt ini h1 h2 h3 h4 h5 h6 h7
  simp [RequestWillBeSentEvent.eventInit, decodeStep, h1, h2, h3, h4, h5, h6, h7,
    exceptBind_ok]

theorem claim_C8_optional_structure_stays_none_witness :
    ((PyValue.str ("r1")).isDict = false) ∧
    RequestWillBeSentEvent.eventInit (PyValue.str ("r1")) (PyValue.str ("l1"))
        (PyValue.str ("http://x")) (PyValue.str ("rq")) (PyValue.int 3)
        (PyValue.int 4) (PyValue.str ("i"))
        PyValue.none PyValue.none PyValue.none =
      Except.ok [(("requestId"), PyValue.str ("r1")), (("loaderId"), PyValue.str ("l1")),
                 (("documentURL"), PyValue.str ("http://x")), (("request"), PyValue.str ("rq")),
                 (("timestamp"), PyValue.int 3), (("wallTime"), PyValue.int 4),
                 (("initiator"), PyValue.str ("i")), (("redirectResponse"), PyValue.none),
                 (("type"), PyValue.none), (("frameId"), PyValue.none)] :=
  ⟨rfl,
   claim_C8_optional_structure_stays_none.2.1 _ _ _ _ _ _ _
     rfl rfl rfl rfl rfl rfl rfl⟩

/-- Claim C3: for every command builder, each optional parameter the caller
leaves unsupplied (Python None, the absent marker) is omitted from the
outbound envelope params mapping entirely — the payload simply lacks that
key — while supplied parameters appear under their declared names. -/
theorem claim_C3_unsupplied_optional_omitted :
    (∀ d p : PyValue,
      (DOM.getDocument d p).1.params =
        ([(("depth"), d), (("pierce"), p)] :
          List (String × PyValue)).filter (fun kv => !kv.2.isNone) ∧
      (d.isNone = true →
        lookupArg ("depth") (DOM.getDocument d p).1.params = Option.none) ∧
      (d.isNone = false →
        lookupArg ("depth") (DOM.getDocument d p).1.params = some d) ∧
      (p.isNone = true →
        lookupArg ("pierce") (DOM.getDocument d p).1.params = Option.none) ∧
      (p.isNone = false →
        lookupArg ("pierce") (DOM.getDocument d p).1.params = some p)) ∧
    (∀ m1 m2 : PyValue,
      (Network.enable m1 m2).1.params =
        ([(("maxTotalBufferSize"), m1), (("maxResourceBufferSize"), m2)] :
          List (String × PyValue)).filter (fun kv => !kv.2.isNone) ∧
      (m1.isNone = true →
        lookupArg ("maxTotalBufferSize") (Network.enable m1 m2).1.params = Option.none) ∧
      (m1.isNone = false →
        lookupArg ("maxTotalBufferSize") (Network.enable m1 m2).1.params = some m1) ∧
      (m2.isNone = true →
        lookupArg ("maxResourceBufferSize") (Network.enable m1 m2).1.params = Option.none) ∧
      (m2.isNone = false →
        lookupArg ("maxResourceBufferSize") (Network.enable m1 m2).1.params = some m2)) := by
  constructor
  · intro d p
    cases hd : d.isNone <;> cases hp : p.isNone <;>
      refine ⟨rfl, ?_, ?_, ?_, ?_⟩ <;> intro h <;>
      simp_all [DOM.getDocument, build_send_payload, lookupArg, List.filter]
  · intro m1 m2
    cases h1 : m1.isNone <;> cases h2 : m2.isNone <;>
      refine ⟨rfl, ?_, ?_, ?_, ?_⟩ <;> intro h <;>
      simp_all [Network.enable, build_send_payload, lookupArg, List.filter]

theorem claim_C3_unsupplied_optional_omitted_witness :
    ((PyValue.int 2).isNone = false) ∧ (PyValue.none.isNone = true) ∧
    lookupArg ("depth") (DOM.getDocument (PyValue.int 2) PyValue.none).1.params =
      some (PyValue.int 2) ∧
    lookupArg ("pierce") (DOM.getDocument (PyValue.int 2) PyValue.none).1.params =
      Option.none :=
  ⟨rfl, rfl,
   (claim_C3_unsupplied_optional_omitted.1 (PyValue.int 2) PyValue.none).2.2.1 rfl,
   (claim_C3_unsupplied_optional_omitted.1 (PyValue.int 2) PyValue.none).2.2.2.1 rfl⟩

/-- Claim C6: for every command builder, invoking encode with a required
parameter missing raises SchemaError, synchronously (encode is a pure
function) and before any frame is sent (no envelope is produced at all);
also a domain.method unknown to the catalog is a SchemaError. -/
theorem claim_C6_missing_required_schema_error :
    (∀ args, lookupArg ("userAgent") args = Option.none →
      encode commandCatalog ("Network") ("setUserAgentOverride") args =
        Except.error CodecError.schemaError) ∧
    (∀ args, lookupArg ("nodeId") args = Option.none →
      encode commandCatalog ("DOM") ("getRelayoutBoundary") args =
        Except.error CodecError.schemaError) ∧
    encode commandCatalog ("Foo") ("bar") [] = Except.error CodecError.schemaError := by
  refine ⟨?_, ?_, rfl⟩
  · intro args h
    have hf : commandCatalog.find?
        (fun e => e.domain == "Network" && e.method == "setUserAgentOverride") =
        some ⟨("Network"), ("setUserAgentOverride"), [("userAgent")], []⟩ := rfl
    simp [encode, hf, h]
  · intro args h
    have hf : commandCatalog.find?
        (fun e => e.domain == "DOM" && e.method == "getRelayoutBoundary") =
        some ⟨("DOM"), ("getRelayoutBoundary"), [("nodeId")], []⟩ := rfl
    simp [encode, hf, h]

theorem claim_C6_missing_required_schema_error_witness :
    lookupArg ("userAgent") ([] : List (String × PyValue)) = Option.none ∧
    encode commandCatalog ("Network") ("setUserAgentOverride") [] =
      Except.error CodecError.schemaError :=
  ⟨rfl, claim_C6_missing_required_schema_error.1 [] rfl⟩

/-- No comma occurs in the rendering of the value: the separator used by
`build_hash` between `field=value` pairs. -/
def commaFree (s : String) : Prop := ',' ∉ s.data

instance (s : String) : Decidable (commaFree s) := by
  unfold commaFree
  infer_instance

lemma digitChar_eq_star_of_ge (n : Nat) (h : 16 ≤ n) : Nat.digitChar n = '*' := by
  unfold Nat.digitChar
  repeat rw [if_neg (by omega)]

lemma digitChar_ne_comma (n : Nat) : Nat.digitChar n ≠ ',' := by
  rcases Nat.lt_or_ge n 16 with h | h
  · interval_cases n <;> decide
  · rw [digitChar_eq_star_of_ge n h]
    decide

lemma digitChar_ne_hyphen (n : Nat) : Nat.digitChar n ≠ '-' := by
  rcases Nat.lt_or_ge n 16 with h | h
  · interval_cases n <;> decide
  · rw [digitChar_eq_star_of_ge n h]
    decide

lemma toDigitsCore_zero_fuel (n : Nat) (ds : List Char) :
    Nat.toDigitsCore 10 0 n ds = ds := rfl

lemma toDigitsCore_succ_fuel (f n : Nat) (ds : List Char) :
    Nat.toDigitsCore 10 (f + 1) n ds =
      if n / 10 = 0 then Nat.digitChar (n % 10) :: ds
      else Nat.toDigitsCore 10 f (n / 10) (Nat.digitChar (n % 10) :: ds) := rfl

lemma char_not_mem_toDigitsCore (c : Char) (hc : ∀ m, Nat.digitChar m ≠ c) :
    ∀ (fuel n : Nat) (ds : List Char),
      c ∉ ds → c ∉ Nat.toDigitsCore 10 fuel n ds := by
  intro fuel
  induction fuel with
  | zero => intro n ds h; simpa [toDigitsCore_zero_fuel] using h
  | succ f ih =>
    intro n ds h
    have hcons : c ∉ Nat.digitChar (n % 10) :: ds := by
      intro hmem
      rcases List.mem_cons.mp hmem with hmem | hmem
      · exact hc (n % 10) hmem.symm
      · exact h hmem
    rw [toDigitsCore_succ_fuel]
    split
    · exact hcons
    · exact ih (n / 10) (Nat.digitChar (n % 10) :: ds) hcons

lemma comma_not_mem_nat_toString (n : Nat) : ',' ∉ (toString n).data := by
  have : (toString n).data = Nat.toDigits 10 n := rfl
  rw [this]
  exact char_not_mem_toDigitsCore ',' digitChar_ne_comma (n + 1) n [] (by simp)

lemma hyphen_not_mem_nat_toString (n : Nat) : '-' ∉ (toString n).data := by
  have : (toString n).data = Nat.toDigits 10 n := rfl
  rw [this]
  exact char_not_mem_toDigitsCore '-' digitChar_ne_hyphen (n + 1) n [] (by simp)

/-- The numeric value of a decimal digit character (proof-internal). -/
def digitVal (c : Char) : Nat := c.toNat - 48

/-- The number denoted by a most-significant-first decimal digit list
(proof-internal, used to show the decimal rendering is injective). -/
def digitsVal (l : List Char) : Nat :=
  l.foldl (fun acc c => acc * 10 + digitVal c) 0

lemma digitsVal_append_singleton (xs : List Char) (c : Char) :
    digitsVal (xs ++ [c]) = digitsVal xs * 10 + digitVal c := by
  simp [digitsVal, List.foldl_append]

lemma digitVal_digitChar (m : Nat) (h : m < 10) :
    digitVal (Nat.digitChar m) = m := by
  interval_cases m <;> decide

lemma toDigitsCore_append (fuel : Nat) :
    ∀ (n : Nat) (ds : List Char),
      Nat.toDigitsCore 10 fuel n ds = Nat.toDigitsCore 10 fuel n [] ++ ds := by
  induction fuel with
  | zero => intro n ds; simp [toDigitsCore_zero_fuel]
  | succ f ih =>
    intro n ds
    rw [toDigitsCore_succ_fuel, toDigitsCore_succ_fuel f n []]
    split
    · simp
    · rw [ih (n / 10) (Nat.digitChar (n % 10) :: ds),
        ih (n / 10) [Nat.digitChar (n % 10)], List.append_assoc]
      simp

lemma digitsVal_toDigitsCore (fuel : Nat) :
    ∀ n : Nat, n < 10 ^ fuel →
      digitsVal (Nat.toDigitsCore 10 fuel n []) = n := by
  induction fuel with
  | zero =>
    intro n hn
    interval_cases n
    simp [toDigitsCore_zero_fuel, digitsVal]
  | succ f ih =>
    intro n hn
    rw [toDigitsCore_succ_fuel]
    split
    · rename_i h0
      have hmod : n % 10 < 10 := Nat.mod_lt _ (by omega)
      simp only [digitsVal, List.foldl_cons, List.foldl_nil, Nat.zero_mul,
        Nat.zero_add]
      rw [digitVal_digitChar _ hmod]
      omega
    · rename_i h0
      rw [toDigitsCore_append, digitsVal_append_singleton]
      have hdiv : n / 10 < 10 ^ f := by
        rw [Nat.div_lt_iff_lt_mul (by omega)]
        calc n < 10 ^ (f + 1) := hn
        _ = 10 ^ f * 10 := by ring
      rw [ih (n / 10) hdiv, digitVal_digitChar _ (Nat.mod_lt _ (by omega))]
      omega

lemma nat_toString_inj {m m' : Nat} (h : toString m = toString m') : m = m' := by
  have hdata : Nat.toDigits 10 m = Nat.toDigits 10 m' := congrArg String.data h
  have hm : m < 10 ^ (m + 1) := by
    calc m < 2 ^ m := Nat.lt_two_pow m
    _ ≤ 2 ^ (m + 1) := Nat.pow_le_pow_right (by omega) (by omega)
    _ ≤ 10 ^ (m + 1) := Nat.pow_le_pow_left (by omega) _
  have hm' : m' < 10 ^ (m' + 1) := by
    calc m' < 2 ^ m' := Nat.lt_two_pow m'
    _ ≤ 2 ^ (m' + 1) := Nat.pow_le_pow_right (by omega) (by omega)
    _ ≤ 10 ^ (m' + 1) := Nat.pow_le_pow_left (by omega) _
  have h1 := digitsVal_toDigitsCore (m + 1) m hm
  have h2 := digitsVal_toDigitsCore (m' + 1) m' hm'
  rw [show Nat.toDigits 10 m = Nat.toDigitsCore 10 (m + 1) m [] from rfl,
    show Nat.toDigits 10 m' = Nat.toDigitsCore 10 (m' + 1) m' [] from rfl] at hdata
  rw [← h1, ← h2, hdata]

lemma int_toString_inj {m m' : Int} (h : toString m = toString m') : m = m' := by
  cases m with
  | ofNat a =>
    cases m' with
    | ofNat a' =>
      exact congrArg Int.ofNat (nat_toString_inj h)
    | negSucc a' =>
      exfalso
      have hd : (toString (a : Nat)).data = '-' :: (toString (a' + 1)).data :=
        congrArg String.data h
      exact hyphen_not_mem_nat_toString a (hd ▸ List.mem_cons_self _ _)
  | negSucc a =>
    cases m' with
    | ofNat a' =>
      exfalso
      have hd : '-' :: (toString (a + 1)).data = (toString (a' : Nat)).data :=
        congrArg String.data h
      exact hyphen_not_mem_nat_toString a' (hd ▸ List.mem_cons_self _ _)
    | negSucc a' =>
      have hd : '-' :: (toString (a + 1)).data = '-' :: (toString (a' + 1)).data :=
        congrArg String.data h
      have : toString (a + 1) = toString (a' + 1) :=
        String.ext (List.cons.injEq .. |>.mp hd).2
      have := nat_toString_inj this
      exact congrArg Int.negSucc (by omega)

lemma comma_not_mem_int_toString (n : Int) : ',' ∉ (toString n).data := by
  cases n with
  | ofNat m => exact comma_not_mem_nat_toString m
  | negSucc m =>
    have : (toString (Int.negSucc m)).data = '-' :: (toString (m + 1)).data := rfl
    rw [this]
    intro hc
    rcases List.mem_cons.mp hc with hc | hc
    · cases hc
    · exact comma_not_mem_nat_toString (m + 1) hc

lemma comma_split_unique :
    ∀ (xs xs' ys ys' : List Char),
      ',' ∉ xs → ',' ∉ xs' → xs ++ ',' :: ys = xs' ++ ',' :: ys' →
      xs = xs' ∧ ys = ys'
  | [], [], _, _ => fun _ _ h => by simpa using h
  | [], a' :: t', _, _ => fun _ hx' h => by
    simp only [List.nil_append, List.cons_append, List.cons.injEq] at h
    exact absurd (h.1 ▸ List.mem_cons_self a' t') hx'
  | a :: t, [], _, _ => fun hx _ h => by
    simp only [List.nil_append, List.cons_append, List.cons.injEq] at h
    exact absurd (h.1.symm ▸ List.mem_cons_self a t) hx
  | a :: t, a' :: t', ys, ys' => fun hx hx' h => by
    simp only [List.cons_append, List.cons.injEq] at h
    obtain ⟨rfl, h2⟩ := h
    have := comma_split_unique t t' ys ys'
      (fun hc => hx (List.mem_cons_of_mem _ hc))
      (fun hc => hx' (List.mem_cons_of_mem _ hc)) h2
    exact ⟨by rw [this.1], this.2⟩

@[simp] lemma comma_data : (",").data = [','] := rfl

lemma rwbs_hash_data (a b c : String) :
    (RequestWillBeSentEvent.build_hash (PyValue.str a) (PyValue.str b)
        (PyValue.str c)).data =
      ("Network.requestWillBeSent").data ++ ((":").data ++ (("loaderId=").data ++
        (a.data ++ (',' :: (("frameId=").data ++
          (b.data ++ (',' :: (("requestId=").data ++ c.data)))))))) := by
  simp [RequestWillBeSentEvent.build_hash, RequestWillBeSentEvent.js_name,
    buildHashString, joinComma, pyStr, String.data_append, List.append_assoc]

lemma cni_hash_data (a b : String) :
    (ChildNodeInsertedEvent.build_hash (PyValue.str a) (PyValue.str b)).data =
      ("Dom.childNodeInserted").data ++ ((":").data ++ (("previousNodeId=").data ++
        (a.data ++ (',' :: (("parentNodeId=").data ++ b.data))))) := by
  simp [ChildNodeInsertedEvent.build_hash, ChildNodeInsertedEvent.js_name,
    buildHashString, joinComma, pyStr, String.data_append, List.append_assoc]

lemma rwbs_hash_inj (a b c a' b' c' : String)
    (ha : commaFree a) (hb : commaFree b) (ha' : commaFree a') (hb' : commaFree b')
    (h : RequestWillBeSentEvent.build_hash (PyValue.str a) (PyValue.str b)
        (PyValue.str c) =
      RequestWillBeSentEvent.build_hash (PyValue.str a') (PyValue.str b')
        (PyValue.str c')) :
    a = a' ∧ b = b' ∧ c = c' := by
  have hd := congrArg String.data h
  rw [rwbs_hash_data, rwbs_hash_data] at hd
  have hd1 := List.append_cancel_left hd
  have hd2 := List.append_cancel_left hd1
  have hd3 := List.append_cancel_left hd2
  obtain ⟨he1, hr⟩ := comma_split_unique _ _ _ _ ha ha' hd3
  have hr1 := List.append_cancel_left hr
  obtain ⟨he2, hr2⟩ := comma_split_unique _ _ _ _ hb hb' hr1
  have hr3 := List.append_cancel_left hr2
  exact ⟨String.ext he1, String.ext he2, String.ext hr3⟩

/-- Claim C2 counterexample: two `Network.requestWillBeSent` frames that
DIFFER in the hashable `loaderId` (and `frameId`) fields nevertheless
compute the SAME identity string, because string values containing the
separator characters collide.  This refutes the second half of the claim as
stated. -/
theorem claim_C2_counterexample :
    RequestWillBeSentEvent.build_hash (PyValue.str ("L,frameId=F"))
        (PyValue.str ("X")) (PyValue.str ("R")) =
      RequestWillBeSentEvent.build_hash (PyValue.str ("L"))
        (PyValue.str ("F,frameId=X")) (PyValue.str ("R")) ∧
    ("L,frameId=F" : String) ≠ "L" := by
  exact ⟨rfl, by decide⟩

/-- Claim C2 as amended: (i) identical raw values in exactly the declared
hashable fields give the same identity string regardless of any non-hashable
field (determinism, for every event class); (ii) frames differing in at
least one hashable field give different identity strings PROVIDED no
hashable value renders with an embedded comma — shown for the cited
`RequestWillBeSentEvent` (string-typed fields, comma-freedom as a
hypothesis) and `ChildNodeInsertedEvent` (int-typed fields, where
comma-freedom of the decimal rendering is automatic, so injectivity is
unconditional). -/
theorem claim_C2_identity_amended :
    (∀ (e : EventClassDecl) (p1 p2 : List (String × PyValue)),
      (∀ f ∈ e.hashable, lookupArg f p1 = lookupArg f p2) →
      frameIdentity e p1 = frameIdentity e p2) ∧
    (∀ a b c a' b' c' : String,
      commaFree a → commaFree b → commaFree a' → commaFree b' →
      RequestWillBeSentEvent.build_hash (PyValue.str a) (PyValue.str b)
          (PyValue.str c) =
        RequestWillBeSentEvent.build_hash (PyValue.str a') (PyValue.str b')
          (PyValue.str c') →
      a = a' ∧ b = b' ∧ c = c') ∧
    (∀ m n m' n' : Int,
      ChildNodeInsertedEvent.build_hash (PyValue.int m) (PyValue.int n) =
        ChildNodeInsertedEvent.build_hash (PyValue.int m') (PyValue.int n') →
      m = m' ∧ n = n') := by
  refine ⟨?_, rwbs_hash_inj, ?_⟩
  · intro e p1 p2 hsame
    unfold frameIdentity
    congr 1
    apply List.map_congr_left
    intro f hf
    rw [hsame f hf]
  · intro m n m' n' h
    have h' : ChildNodeInsertedEvent.build_hash (PyValue.str (toString m))
        (PyValue.str (toString n)) =
        ChildNodeInsertedEvent.build_hash (PyValue.str (toString m'))
          (PyValue.str (toString n')) := by
      simpa [ChildNodeInsertedEvent.build_hash, buildHashString, joinComma, pyStr,
        pyRepr] using h
    have hd := congrArg String.data h'
    rw [cni_hash_data, cni_hash_data] at hd
    have hd1 := List.append_cancel_left hd
    have hd2 := List.append_cancel_left hd1
    have hd3 := List.append_cancel_left hd2
    obtain ⟨he1, hr⟩ := comma_split_unique _ _ _ _
      (comma_not_mem_int_toString m) (comma_not_mem_int_toString m') hd3
    have hr1 := List.append_cancel_left hr
    exact ⟨int_toString_inj (String.ext he1), int_toString_inj (String.ext hr1)⟩

theorem claim_C2_identity_amended_witness :
    commaFree ("loader-7") ∧ commaFree ("frame-3") ∧
    (RequestWillBeSentEvent.build_hash (PyValue.str ("loader-7"))
        (PyValue.str ("frame-3")) (PyValue.str ("req-9")) =
      RequestWillBeSentEvent.build_hash (PyValue.str ("loader-7"))
        (PyValue.str ("frame-3")) (PyValue.str ("req-9")) →
      ("loader-7" : String) = "loader-7" ∧ ("frame-3" : String) = "frame-3" ∧
      ("req-9" : String) = "req-9") ∧
    (ChildNodeInsertedEvent.build_hash (PyValue.int 4) (PyValue.int 12) =
      ChildNodeInsertedEvent.build_hash (PyValue.int 4) (PyValue.int 12) →
      (4 : Int) = 4 ∧ (12 : Int) = 12) :=
  ⟨by decide, by decide,
   claim_C2_identity_amended.2.1 _ _ _ _ _ _ (by decide) (by decide)
     (by decide) (by decide),
   claim_C2_identity_amended.2.2 4 12 4 12⟩

lemma delivery_reqId_mk (b : Bool) (i : Nat) :
    (if b then Delivery.reject i else Delivery.resolve i).reqId = i := by
  cases b <;> rfl

lemma corrRun_cons (s : CorrState) (f : RespFrame) (fs : List RespFrame) :
    corrRun s (f :: fs) =
      ((corrRun (corrStep s f).1 fs).1,
       (corrStep s f).2.toList ++ (corrRun (corrStep s f).1 fs).2) := rfl

lemma corrRun_no_delivery (X : Nat) :
    ∀ (fs : List RespFrame) (s : CorrState), X ∉ s.pending →
      (corrRun s fs).2.countP (fun d => d.reqId == X) = 0 := by
  intro fs
  induction fs with
  | nil => intro s _; simp [corrRun]
  | cons f fs ih =>
    intro s h
    rw [corrRun_cons, List.countP_append]
    by_cases hmem : f.id ∈ s.pending
    · have hne : f.id ≠ X := fun he => h (he ▸ hmem)
      have hstep : corrStep s f =
          (⟨s.pending.erase f.id, f.id :: s.terminal, s.logged⟩,
           some (if f.isError then Delivery.reject f.id else Delivery.resolve f.id)) := by
        simp [corrStep, hmem]
      rw [hstep]
      have hnot : X ∉ s.pending.erase f.id :=
        fun hx => h (List.mem_of_mem_erase hx)
      rw [ih ⟨s.pending.erase f.id, f.id :: s.terminal, s.logged⟩ hnot]
      simp [List.countP_cons, delivery_reqId_mk, hne]
    · have hstep : corrStep s f =
          (⟨s.pending, s.terminal, f.id :: s.logged⟩, Option.none) := by
        simp [corrStep, hmem]
      rw [hstep]
      rw [ih ⟨s.pending, s.terminal, f.id :: s.logged⟩ h]
      simp

lemma corrRun_at_most_once (X : Nat) :
    ∀ (fs : List RespFrame) (s : CorrState), s.pending.count X ≤ 1 →
      (corrRun s fs).2.countP (fun d => d.reqId == X) ≤ 1 := by
  intro fs
  induction fs with
  | nil => intro s _; simp [corrRun]
  | cons f fs ih =>
    intro s h
    rw [corrRun_cons, List.countP_append]
    by_cases hmem : f.id ∈ s.pending
    · have hstep : corrStep s f =
          (⟨s.pending.erase f.id, f.id :: s.terminal, s.logged⟩,
           some (if f.isError then Delivery.reject f.id else Delivery.resolve f.id)) := by
        simp [corrStep, hmem]
      rw [hstep]
      by_cases hX : f.id = X
      · subst hX
        have herase : (s.pending.erase f.id).count f.id = s.pending.count f.id - 1 :=
          List.count_erase_self f.id s.pending
        have hnotin : f.id ∉ s.pending.erase f.id :=
          List.count_eq_zero.mp (by omega)
        rw [corrRun_no_delivery f.id fs _ hnotin]
        simp [List.countP_cons, delivery_reqId_mk]
      · have hnot : (s.pending.erase f.id).count X = s.pending.count X := by
          rw [List.count_erase_of_ne (fun he => hX he.symm)]
        have hrec := ih ⟨s.pending.erase f.id, f.id :: s.terminal, s.logged⟩
          (show (s.pending.erase f.id).count X ≤ 1 by omega)
        simp only [Option.toList_some, List.countP_cons, List.countP_nil,
          delivery_reqId_mk]
        have hne : (f.id == X) = false := by
          simp [hX]
        rw [hne]
        simpa using hrec
    · have hstep : corrStep s f =
          (⟨s.pending, s.terminal, f.id :: s.logged⟩, Option.none) := by
        simp [corrStep, hmem]
      rw [hstep]
      have hrec := ih ⟨s.pending, s.terminal, f.id :: s.logged⟩ h
      simpa using hrec

/-- Claim C7: for every request id X, the Correlator satisfies the
completion handle of X at most once across any arrival-ordered frame
sequence; while X is Pending the first frame bearing X resolves or rejects
it exactly once (and X leaves Pending), and any frame bearing a non-Pending
id is logged and discarded, never delivered. -/
theorem claim_C7_response_delivered_at_most_once :
    (∀ (s : CorrState) (fs : List RespFrame) (X : Nat),
      s.pending.count X ≤ 1 →
      (corrRun s fs).2.countP (fun d => d.reqId == X) ≤ 1) ∧
    (∀ (s : CorrState) (f : RespFrame), f.id ∈ s.pending →
      (corrStep s f).2 =
        some (if f.isError then Delivery.reject f.id else Delivery.resolve f.id) ∧
      (corrStep s f).1.pending = s.pending.erase f.id) ∧
    (∀ (s : CorrState) (f : RespFrame), f.id ∉ s.pending →
      corrStep s f = (⟨s.pending, s.terminal, f.id :: s.logged⟩, Option.none)) := by
  refine ⟨fun s fs X h => corrRun_at_most_once X fs s h, ?_, ?_⟩
  · intro s f h
    constructor <;> simp [corrStep, h]
  · intro s f h
    simp [corrStep, h]

theorem claim_C7_response_delivered_at_most_once_witness :
    ((⟨[7], [], []⟩ : CorrState).pending.count 7 ≤ 1) ∧
    (corrRun ⟨[7], [], []⟩ [⟨7, false⟩, ⟨7, false⟩]).2.countP
      (fun d => d.reqId == 7) ≤ 1 ∧
    (corrRun ⟨[7], [], []⟩ [⟨7, false⟩, ⟨7, false⟩]).2 = [Delivery.resolve 7] :=
  ⟨by decide,
   claim_C7_response_delivered_at_most_once.1 ⟨[7], [], []⟩
     [⟨7, false⟩, ⟨7, false⟩] 7 (by decide),
   by decide⟩

end Chromewhip
